import Mathlib

/-!
Verification development for the simple_jobs crate.

The crate tracks the lifecycle of an asynchronous unit of work ("a job"):
a submission engine persists an initial record, schedules the work, and
persists a terminal record when the work completes.  The core is the trait
Job in src/lib.rs; the backends are FSJob (src/fs_job.rs, one file per job)
and DieselSqliteJob (src/sqlite_job.rs, append-only table).

The embedding below translates the source:
- uuid::Uuid is modelled as Nat; Uuid::new_v4() is modelled by passing the
  freshly generated identity as an explicit parameter.
- std::io::Error is modelled by IoError (an ErrorKind plus a message).
- Rust Result<Output, Error> is modelled by Except Error Output
  (Except.ok for Ok, Except.error for Err).
- the Default bound on Output and Error of the trait Job is modelled by
  Inhabited instances, with the Lean value named default.
- a fallible operation returns Except IoError; a panic (the .unwrap() calls
  in the completion path of submit) is modelled as Option.none.
- tokio::spawn is modelled by returning the scheduled task (a Scheduled
  value carrying the id, the eventual outcome of the work future, and the
  metadata); running the spawned task is the separate function
  Job.completeTask applied to the backend state at completion time.
-/

namespace SimpleJobs

/-- Model of uuid::Uuid (a 128-bit identifier; only equality matters here). -/
abbrev Uuid := Nat

/-- Model of std::io::ErrorKind, keeping the classes the sources construct or
rely on: NotFound (File::open on a missing path), InvalidData (serde_json
deserialization failures converted to io::Error), and Other (the kind
sqlite_job.rs passes to io::Error::new on every failure path). -/
inductive ErrorKind where
  | notFound
  | invalidData
  | other
deriving DecidableEq

/-- Model of std::io::Error: an error kind plus a message string. -/
structure IoError where
  kind : ErrorKind
  msg : String
deriving DecidableEq

/-- The enum Status of src/lib.rs (lines 119-123): Started, Custom(String),
Finished. -/
inductive Status where
  | started
  | custom (tag : String)
  | finished
deriving DecidableEq

/-- The enum JobStatus of src/lib.rs (lines 66-72): Started, Running,
Finished.  It is the status type of the JobInfo iteration used by
src/sqlite_job.rs and its test. -/
inductive JobStatus where
  | started
  | running
  | finished
deriving DecidableEq

/-- The snapshot a conforming backend holds for one id after a call to
Job.save of src/lib.rs (lines 136-143): the status, output, error and
metadata arguments of that call. -/
structure StoredRecord (O E M : Type) where
  status : Status
  output : O
  error : E
  metadata : M
deriving DecidableEq

/-- The trait Job of src/lib.rs (lines 128-151), seen as a record of its two
required operations over an explicit backend state sigma.
save (lines 136-143) persists (status, output, error, metadata) under id;
load (lines 148-151) returns the (Output, Error, Metadata) triple for id.
Note the trait's load returns no status and no optional result. -/
structure Job (O E M : Type) (sigma : Type) where
  save : sigma → Uuid → Status → O → E → M → Except IoError sigma
  load : sigma → Uuid → Except IoError (O × E × M)

/-- The task body that Job::submit hands to tokio::spawn (src/lib.rs lines
180-203): the id, the eventual outcome of the work future, and the cloned
metadata it captures. -/
structure Scheduled (O E M : Type) where
  id : Uuid
  work : Except E O
  metadata : M

/-- The provided method Job::submit of src/lib.rs (lines 158-207):
generate an id (passed here as the parameter id), save the initial record
(Status::Started, Output::default(), Error::default(), metadata) and
propagate a save failure with the question-mark operator; otherwise build
the future with f, hand it to tokio::spawn (modelled by returning the
Scheduled task), and return Ok(id). -/
def Job.submit [Inhabited O] [Inhabited E] (B : Job O E M sigma) (s : sigma)
    (id : Uuid) (f : Uuid → Except E O) (m : M) :
    Except IoError (Uuid × sigma × Scheduled O E M) :=
  match B.save s id Status.started default default m with
  | Except.error e => Except.error e
  | Except.ok s1 => Except.ok (id, s1, ⟨id, f id, m⟩)

/-- The body of the task spawned by Job::submit (src/lib.rs lines 180-203):
await the work; on Ok(result) save (Status::Finished, result,
Error::default(), metadata); on Err(err) save (Status::Finished,
Output::default(), err, metadata).  Both branches call .unwrap() on the
save, so a failing final save panics the task: the panic is modelled by
Option.none, and the type shows no error value can reach the caller of
submit from here. -/
def Job.completeTask [Inhabited O] [Inhabited E] (B : Job O E M sigma)
    (s : sigma) (t : Scheduled O E M) : Option sigma :=
  match t.work with
  | Except.ok result =>
    match B.save s t.id Status.finished result default t.metadata with
    | Except.ok s2 => some s2
    | Except.error _ => none
  | Except.error err =>
    match B.save s t.id Status.finished default err t.metadata with
    | Except.ok s2 => some s2
    | Except.error _ => none

/-- Modelled from the spec: an idealized conforming Storage Port backend
state (spec section 4.2) keeping, per id, the most recently saved snapshot.
This is the shape shared by the crate's snapshot backends (FSJob keeps one
file per id and File::create overwrites it) and by the in-crate test
double (a HashMap keyed by id). -/
abbrev MapStore (O E M : Type) := Uuid → Option (StoredRecord O E M)

/-- The empty MapStore: no id has ever been saved. -/
def emptyStore (O E M : Type) : MapStore O E M := fun _ => none

/-- Saving into a MapStore: the new snapshot replaces any previous snapshot
for the id (spec section 4.2: the backend stores whatever the caller
supplies as the new authoritative snapshot). -/
def mapSave (s : MapStore O E M) (id : Uuid) (r : StoredRecord O E M) :
    MapStore O E M :=
  fun j => if j = id then some r else s j

/-- The idealized conforming backend as a Job instance: save stores the
snapshot, load returns the (output, error, metadata) triple of the stored
snapshot, or a NotFound-class error when no snapshot exists. -/
def mapJob (O E M : Type) : Job O E M (MapStore O E M) where
  save := fun s id st o e m => Except.ok (mapSave s id ⟨st, o, e, m⟩)
  load := fun s id =>
    match s id with
    | some r => Except.ok (r.output, r.error, r.metadata)
    | none => Except.error ⟨ErrorKind.notFound, "no record for this id"⟩

/-- Load from a MapStore (the load of mapJob, exposed directly). -/
def mapLoad (s : MapStore O E M) (id : Uuid) : Except IoError (O × E × M) :=
  (mapJob O E M).load s id

/-- A backend over MapStore whose save fails (with an Other-class error)
exactly on the statuses selected by bad, used to exercise the failure
branches of Job.submit and Job.completeTask. -/
def failOnStatus (O E M : Type) (bad : Status → Bool) :
    Job O E M (MapStore O E M) where
  save := fun s id st o e m =>
    if bad st then Except.error ⟨ErrorKind.other, "save failed"⟩
    else Except.ok (mapSave s id ⟨st, o, e, m⟩)
  load := (mapJob O E M).load

/-- One call to Job.save as the engine performs it: the full argument list
of the call. -/
structure SaveCall (O E M : Type) where
  id : Uuid
  status : Status
  output : O
  error : E
  metadata : M
deriving DecidableEq

/-- A backend that records every save call and never fails, used to observe
exactly which save calls the engine performs. -/
def traceJob (O E M : Type) : Job O E M (List (SaveCall O E M)) where
  save := fun s id st o e m => Except.ok (s ++ [⟨id, st, o, e, m⟩])
  load := fun _ _ => Except.error ⟨ErrorKind.other, "trace backend"⟩

/-- The save calls the engine performs for one job whose work ends with
outcome out: run Job.submit on the recording backend, then run the spawned
task.  Per src/lib.rs these are the only two saves the engine itself makes. -/
def engineSaves [Inhabited O] [Inhabited E] (id : Uuid) (out : Except E O)
    (m : M) : List (SaveCall O E M) :=
  match Job.submit (traceJob O E M) [] id (fun _ => out) m with
  | Except.error _ => []
  | Except.ok (_, s1, t) =>
    match Job.completeTask (traceJob O E M) s1 t with
    | none => s1
    | some s2 => s2

/-- The save performed by the spawned task of Job::submit on completion of
the work (src/lib.rs lines 182-202), named so that its failure can be
hypothesised: on Ok(result) it is save(id, Finished, result,
Error::default(), metadata); on Err(err) it is save(id, Finished,
Output::default(), err, metadata). -/
def Job.finalSave [Inhabited O] [Inhabited E] (B : Job O E M sigma)
    (s : sigma) (t : Scheduled O E M) : Except IoError sigma :=
  match t.work with
  | Except.ok result => B.save s t.id Status.finished result default t.metadata
  | Except.error err => B.save s t.id Status.finished default err t.metadata

/-- Canonical string form of a job id, modelling Uuid::to_string as used by
both backends to key their storage. -/
def uuidStr (id : Uuid) : String := toString id

/-- The kind of the error of a failed operation, if it failed.  Models
std::io::Error::kind, the only way a caller can tell a NotFound-class
failure from other I/O failure. -/
def errKind (r : Except IoError α) : Option ErrorKind :=
  match r with
  | Except.error e => some e.kind
  | Except.ok _ => none

/-- Model of the filesystem seen by FSJob: a map from file name to file
contents. -/
abbrev FS := String → Option String

/-- The filesystem with no files. -/
def emptyFS : FS := fun _ => none

/-- Writing a file: the new contents replace whatever the file held. -/
def setFile (fs : FS) (path contents : String) : FS :=
  fun p => if p = path then some contents else fs p

/-- Modelled from the spec: the struct JobInfo that src/fs_job.rs imports
from the crate root is not present in src/ (the crate-root definition is
commented out and has fewer fields).  Reconstructed from the Job Record of
spec section 3 and the uses in src/fs_job.rs and src/tests/fs_job.rs: an
id, a status of the caller-defined status type, an optional result holding
the Ok or Err outcome, and the caller-supplied metadata. -/
structure JobInfo (O E M S : Type) where
  id : Uuid
  status : S
  result : Option (Except E O)
  metadata : M

/-- FSJob::save of src/fs_job.rs (lines 59-67).  The serialization
serde_json::to_string is passed in as the fallible function ser.  The
source first runs File::create on the file named by the id, which
truncates an existing file to empty, and only then serializes the record;
a serialization failure therefore returns an error with the file already
truncated.  The returned pair is (the io::Result of save, the resulting
filesystem).  A File::create failure itself is not modelled (the directory
always exists here), and write_all is taken to write atomically. -/
def FSJob.save (ser : JobInfo O E M S → Except IoError String) (fs : FS)
    (info : JobInfo O E M S) : Except IoError Unit × FS :=
  let fs1 := setFile fs (uuidStr info.id) ""
  match ser info with
  | Except.error e => (Except.error e, fs1)
  | Except.ok contents => (Except.ok (), setFile fs1 (uuidStr info.id) contents)

/-- FSJob::load of src/fs_job.rs (lines 69-86): File::open on the file
named by the id fails with a NotFound io::Error when the file does not
exist; otherwise the whole contents are read and deserialized by the
fallible function deser (serde_json::from_str). -/
def FSJob.load (deser : String → Except IoError (JobInfo O E M S)) (fs : FS)
    (id : Uuid) : Except IoError (JobInfo O E M S) :=
  match fs (uuidStr id) with
  | none => Except.error ⟨ErrorKind.notFound, "No such file or directory"⟩
  | some contents => deser contents

/-- The struct JobInfoResultDB of src/sqlite_job.rs (lines 25-32), one row
of the job_info table: serial primary key, uuid string, serialized status,
serialized result, and the iso8601 creation time string. -/
structure JobInfoResultDB where
  id : Nat
  uuid : String
  status : String
  output : String
  create_time : String
deriving DecidableEq

/-- The job_info table, in insertion order.  The schema module is not under
src/ (commented out of lib.rs); the serial primary key is modelled by the
insertion index. -/
abbrev DB := List JobInfoResultDB

/-- Modelled from the spec: the two-parameter JobInfo that
src/sqlite_job.rs imports from the crate root is not present in src/.
Reconstructed from the Job Record of spec section 3 and the uses in
src/sqlite_job.rs (fields id, status, result) and
src/tests/diesel_sqlite_job.rs (status compared against JobStatus). -/
structure JobInfo2 (O E : Type) where
  id : Uuid
  status : JobStatus
  result : Option (Except E O)

/-- DieselSqliteJob::save of src/sqlite_job.rs (lines 71-92): build a
JobInfoDB row from the id string, the serialized status (encS models
serde_json::to_string), the serialized result (encR), and the iso8601
rendering of SystemTime::now() passed in as now (the wall clock is not
monotonic, so successive now values need not increase), and INSERT it as a
new row — every call appends, nothing is overwritten. -/
def DieselSqliteJob.save (encS : JobStatus → String)
    (encR : Option (Except E O) → String) (db : DB) (info : JobInfo2 O E)
    (now : String) : DB :=
  db ++ [⟨db.length, uuidStr info.id, encS info.status, encR info.result, now⟩]

/-- The rows of the table whose uuid column equals the id being loaded
(the .filter(uuid.eq(id.to_string())) of src/sqlite_job.rs line 106). -/
def dbMatching (db : DB) (id : Uuid) : List JobInfoResultDB :=
  db.filter (fun r => r.uuid == uuidStr id)

/-- Lexicographic order on character lists by code point, the order SQLite
applies to TEXT columns (byte-wise on the UTF-8 encoding; for the iso8601
strings at hand, which are ASCII, the two coincide). -/
def strListLt : List Char → List Char → Bool
  | [], [] => false
  | [], _ :: _ => true
  | _ :: _, [] => false
  | a :: as, b :: bs =>
    if a.val < b.val then true
    else if b.val < a.val then false
    else strListLt as bs

/-- Lexicographic order on strings, the order ORDER BY create_time uses. -/
def strLt (a b : String) : Bool := strListLt a.data b.data

/-- The first row of ORDER BY create_time DESC (src/sqlite_job.rs lines
105-119): a row whose create_time string is maximal among the given rows.
SQL leaves the relative order of rows with equal keys unspecified; this is
the stable choice, the earliest inserted row among the maximal ones. -/
def pickLatest : List JobInfoResultDB → Option JobInfoResultDB
  | [] => none
  | r :: rs =>
    match pickLatest rs with
    | none => some r
    | some b => if strLt r.create_time b.create_time then some b else some r

/-- The row DieselSqliteJob::load selects for an id (src/sqlite_job.rs
lines 105-124): filter the table by the uuid string, order by create_time
descending, take the first row. -/
def DieselSqliteJob.loadRow (db : DB) (id : Uuid) : Option JobInfoResultDB :=
  pickLatest (dbMatching db id)

/-- DieselSqliteJob::load of src/sqlite_job.rs (lines 94-137): select the
row as in DieselSqliteJob.loadRow; if no row exists, fail with
io::Error::new(ErrorKind::Other, "Could not find {id} in the database.") —
note the kind is Other, not NotFound; otherwise rebuild the JobInfo by
parsing the uuid (failures mapped to Other) and deserializing status and
result with the fallible decoders decS and decR (serde_json::from_str).
Getting a pooled connection is assumed to succeed. -/
def DieselSqliteJob.load (decS : String → Except IoError JobStatus)
    (decR : String → Except IoError (Option (Except E O))) (db : DB)
    (id : Uuid) : Except IoError (JobInfo2 O E) :=
  match DieselSqliteJob.loadRow db id with
  | none =>
    Except.error
      ⟨ErrorKind.other, "Could not find " ++ uuidStr id ++ " in the database."⟩
  | some row =>
    match String.toNat? row.uuid with
    | none => Except.error ⟨ErrorKind.other, "could not parse uuid"⟩
    | some u =>
      match decS row.status with
      | Except.error e => Except.error e
      | Except.ok st =>
        match decR row.output with
        | Except.error e => Except.error e
        | Except.ok res => Except.ok ⟨u, st, res⟩

deriving instance DecidableEq for Except

/-- Status predicate selecting the initial status, used to make the initial
save of Job.submit fail in concrete scenarios. -/
def demoBadStarted : Status → Bool
  | Status.started => true
  | _ => false

/-- Status predicate selecting the terminal status, used to make the final
save of the spawned task fail in concrete scenarios. -/
def demoBadFinished : Status → Bool
  | Status.finished => true
  | _ => false

/-- Run the completion path for a job with id 0 and outcome out on the
idealized backend over the empty store, then load id 0: everything a caller
of load can observe about the outcome after completion. -/
def completeThenLoad (out : Except Nat Nat) : Except IoError (Nat × Nat × Unit) :=
  match Job.completeTask (mapJob Nat Nat Unit) (emptyStore Nat Nat Unit)
      ⟨0, out, ()⟩ with
  | some s => mapLoad s 0
  | none => Except.error ⟨ErrorKind.other, "task panicked"⟩

/-- The store directly after Job.submit of a job with id 0, work returning
Ok(0) and metadata (), on the idealized backend over the empty store. -/
def demoStoreAfterSubmit : MapStore Nat Nat Unit :=
  match Job.submit (mapJob Nat Nat Unit) (emptyStore Nat Nat Unit) 0
      (fun _ => Except.ok 0) () with
  | Except.ok (_, s1, _) => s1
  | Except.error _ => emptyStore Nat Nat Unit

/-- The store after the job of demoStoreAfterSubmit completes with Ok(0). -/
def demoStoreAfterRun : MapStore Nat Nat Unit :=
  match Job.completeTask (mapJob Nat Nat Unit) demoStoreAfterSubmit
      ⟨0, Except.ok 0, ()⟩ with
  | some s2 => s2
  | none => demoStoreAfterSubmit

/-- A concrete status decoder for exercising DieselSqliteJob.load. -/
def demoDecS : String → Except IoError JobStatus :=
  fun _ => Except.ok JobStatus.started

/-- A concrete result decoder for exercising DieselSqliteJob.load. -/
def demoDecR : String → Except IoError (Option (Except Nat Nat)) :=
  fun _ => Except.ok none

/-- A concrete deserializer for exercising FSJob.load. -/
def demoDeser : String → Except IoError (JobInfo Nat Nat Nat JobStatus) :=
  fun _ => Except.error ⟨ErrorKind.invalidData, "bad json"⟩

/-- A serializer that fails, modelling a serde_json::to_string error inside
FSJob::save. -/
def demoFailSer : JobInfo Nat Nat Nat JobStatus → Except IoError String :=
  fun _ => Except.error ⟨ErrorKind.invalidData, "serialization failed"⟩

/-- A filesystem already holding a persisted record for job id 9. -/
def demoFS : FS := setFile emptyFS "9" "old record"

/-- The in-memory record whose save over demoFS is exercised. -/
def demoInfoFS : JobInfo Nat Nat Nat JobStatus := ⟨9, JobStatus.started, none, 0⟩

/-- A concrete status encoder for exercising DieselSqliteJob.save. -/
def demoEncS : JobStatus → String
  | JobStatus.started => "started"
  | JobStatus.running => "running"
  | JobStatus.finished => "finished"

/-- A concrete result encoder for exercising DieselSqliteJob.save. -/
def demoEncR : Option (Except Nat Nat) → String
  | none => "null"
  | some (Except.ok n) => "ok " ++ toString n
  | some (Except.error n) => "err " ++ toString n

/-- A first snapshot of job 7, still running. -/
def demoInfoA : JobInfo2 Nat Nat := ⟨7, JobStatus.started, none⟩

/-- A later snapshot of job 7, finished with Ok(1). -/
def demoInfoB : JobInfo2 Nat Nat := ⟨7, JobStatus.finished, some (Except.ok 1)⟩

/-- The iso8601 string the wall clock produced at the first save. -/
def demoTimeLate : String := "2024-01-02T00:00:00+00:00"

/-- The iso8601 string the wall clock produced at the second save, earlier
than demoTimeLate because the wall clock was stepped backwards between the
two saves (SystemTime::now() is not monotonic). -/
def demoTimeEarly : String := "2024-01-01T00:00:00+00:00"

/-- The job_info table after the two saves of job 7: the first save carries
the later timestamp, the second (most recent) save the earlier one. -/
def demoDB : DB :=
  DieselSqliteJob.save demoEncS demoEncR
    (DieselSqliteJob.save demoEncS demoEncR [] demoInfoA demoTimeLate)
    demoInfoB demoTimeEarly

/-- Claim C1, counterexample.  The claim states that after the work
completes with outcome r the saved record holds result = Some(r) verbatim,
so that a later load yields Some(Ok(v)) for success and Some(Err(e)) for
failure.  On the code of src/lib.rs lines 180-203 this is false: there is
no result field, the outcome is split into the output and error slots with
the slot not determined by the outcome filled by Default.  Concretely, for
Output = Error = u64-like Nat, work returning Ok(0) and work returning
Err(0) lead, after completion, to identical stores, so the load a caller
performs afterwards is the same value for both; no load can report
Some(Ok(0)) for the one and Some(Err(0)) for the other. -/
theorem c1_counterexample :
    completeThenLoad (Except.ok 0) = Except.ok (0, 0, ())
    ∧ completeThenLoad (Except.error 0) = Except.ok (0, 0, ())
    ∧ completeThenLoad (Except.ok 0) = completeThenLoad (Except.error 0)
    ∧ (Except.ok 0 : Except Nat Nat) ≠ Except.error 0 := by
  refine ⟨rfl, rfl, rfl, by decide⟩

/-- Claim C1, amended.  When the work scheduled by submit completes with
outcome r, the spawned task saves a record with the terminal status
Finished whose output slot holds v and whose error slot holds
Error::default() when r = Ok(v), and whose output slot holds
Output::default() and error slot holds e when r = Err(e); a load performed
after completion on a conforming snapshot backend yields exactly that
(output, error, metadata) triple.  The Ok/Err tag itself is not persisted,
so the outcome is not recoverable verbatim from the loaded data. -/
theorem c1_theorem [Inhabited O] [Inhabited E] (s1 : MapStore O E M)
    (id : Uuid) (v : O) (e : E) (m : M) :
    Job.completeTask (mapJob O E M) s1 ⟨id, Except.ok v, m⟩
      = some (mapSave s1 id ⟨Status.finished, v, default, m⟩)
    ∧ Job.completeTask (mapJob O E M) s1 ⟨id, Except.error e, m⟩
      = some (mapSave s1 id ⟨Status.finished, default, e, m⟩)
    ∧ mapLoad (mapSave s1 id ⟨Status.finished, v, default, m⟩) id
      = Except.ok (v, default, m)
    ∧ mapLoad (mapSave s1 id ⟨Status.finished, default, e, m⟩) id
      = Except.ok (default, e, m) := by
  refine ⟨rfl, rfl, ?_, ?_⟩ <;> simp [mapLoad, mapJob, mapSave]

/-- Claim C2: if the initial save inside submit returns an error, then
submit returns that very error synchronously, and the returned value does
not depend on the work function — no work is scheduled, the work function
is never invoked (the source calls f only after the save succeeded), and no
job identity is returned (the error branch carries neither an id nor a
scheduled task). -/
theorem c2_theorem [Inhabited O] [Inhabited E] (B : Job O E M sigma)
    (s : sigma) (id : Uuid) (f g : Uuid → Except E O) (m : M) (e : IoError)
    (h : B.save s id Status.started default default m = Except.error e) :
    Job.submit B s id f m = Except.error e
    ∧ Job.submit B s id f m = Job.submit B s id g m := by
  unfold Job.submit
  rw [h]
  exact ⟨rfl, rfl⟩

/-- Claim C2, witness: on a backend whose save fails for the initial
status, submit propagates the error, for any two work functions alike. -/
theorem c2_witness :
    (failOnStatus Nat Nat Unit demoBadStarted).save (emptyStore Nat Nat Unit)
        0 Status.started default default () = Except.error ⟨ErrorKind.other, "save failed"⟩
    ∧ (Job.submit (failOnStatus Nat Nat Unit demoBadStarted)
          (emptyStore Nat Nat Unit) 0 (fun _ => Except.ok 0) ()
        = Except.error ⟨ErrorKind.other, "save failed"⟩
      ∧ Job.submit (failOnStatus Nat Nat Unit demoBadStarted)
          (emptyStore Nat Nat Unit) 0 (fun _ => Except.ok 0) ()
        = Job.submit (failOnStatus Nat Nat Unit demoBadStarted)
          (emptyStore Nat Nat Unit) 0 (fun _ => Except.error 1) ()) :=
  ⟨rfl, c2_theorem (failOnStatus Nat Nat Unit demoBadStarted)
    (emptyStore Nat Nat Unit) 0 (fun _ => Except.ok 0)
    (fun _ => Except.error 1) () ⟨ErrorKind.other, "save failed"⟩ rfl⟩

/-- Claim C3, counterexample.  The claim states that an immediate load of
the returned identity yields a record whose status is the initial
non-terminal status and whose result is None.  On the code of src/lib.rs,
load returns only the (Output, Error, Metadata) triple (lines 148-151): it
yields no status and no optional result, and the value it yields right
after submit — the Default placeholders — is identical to the value it
yields after the job has finished with Ok(Output::default()), although the
stored statuses differ.  The immediate load therefore does not yield the
initial status, nor any marker of an absent result. -/
theorem c3_counterexample :
    mapLoad demoStoreAfterSubmit 0 = Except.ok (0, 0, ())
    ∧ mapLoad demoStoreAfterSubmit 0 = mapLoad demoStoreAfterRun 0
    ∧ Option.map (fun r => r.status) (demoStoreAfterSubmit 0) = some Status.started
    ∧ Option.map (fun r => r.status) (demoStoreAfterRun 0) = some Status.finished
    ∧ Status.started ≠ Status.finished := by
  refine ⟨rfl, rfl, rfl, rfl, by decide⟩

/-- Claim C3, amended.  When submit succeeds it returns the generated
identity, having stored a record whose status is Started — the initial,
non-terminal status — and whose output and error slots hold the Default
placeholders (the only representation of "no outcome yet" in this design);
an immediate load of that identity yields
Ok((Output::default(), Error::default(), metadata)).  The trait's load
exposes neither the status nor an optional result. -/
theorem c3_theorem [Inhabited O] [Inhabited E] (s0 : MapStore O E M)
    (id : Uuid) (f : Uuid → Except E O) (m : M) :
    Job.submit (mapJob O E M) s0 id f m
      = Except.ok (id, mapSave s0 id ⟨Status.started, default, default, m⟩,
          ⟨id, f id, m⟩)
    ∧ mapLoad (mapSave s0 id ⟨Status.started, default, default, m⟩) id
      = Except.ok (default, default, m)
    ∧ mapSave s0 id ⟨Status.started, default, default, m⟩ id
      = some ⟨Status.started, default, default, m⟩
    ∧ Status.started ≠ Status.finished := by
  refine ⟨rfl, ?_, ?_, by decide⟩ <;> simp [mapLoad, mapJob, mapSave]

/-- Claim C4: if the final save performed after the work completes returns
an error, the completion path panics — the spawned task unwraps the save
result — and no error value reaches the caller of submit, whose result was
produced before the task ran (the Option return type of the task has no
error channel at all). -/
theorem c4_theorem [Inhabited O] [Inhabited E] (B : Job O E M sigma)
    (s : sigma) (t : Scheduled O E M) (e : IoError)
    (h : Job.finalSave B s t = Except.error e) :
    Job.completeTask B s t = none := by
  obtain ⟨tid, tw, tm⟩ := t
  cases tw with
  | ok v =>
    simp only [Job.finalSave] at h
    simp only [Job.completeTask]
    rw [h]
  | error err =>
    simp only [Job.finalSave] at h
    simp only [Job.completeTask]
    rw [h]

/-- Claim C4, witness: on a backend whose save fails for the terminal
status, the completion of a job that returned Ok(0) panics. -/
theorem c4_witness :
    Job.finalSave (failOnStatus Nat Nat Unit demoBadFinished)
        (emptyStore Nat Nat Unit) ⟨0, Except.ok 0, ()⟩
      = Except.error ⟨ErrorKind.other, "save failed"⟩
    ∧ Job.completeTask (failOnStatus Nat Nat Unit demoBadFinished)
        (emptyStore Nat Nat Unit) ⟨0, Except.ok 0, ()⟩ = none :=
  ⟨rfl, c4_theorem (failOnStatus Nat Nat Unit demoBadFinished)
    (emptyStore Nat Nat Unit) ⟨0, Except.ok 0, ()⟩
    ⟨ErrorKind.other, "save failed"⟩ rfl⟩

/-- Claim C5, counterexample.  The claim states that for every record
reachable through the engine's operations, result is None iff status is not
terminal.  The records the engine saves have no result field; absence of an
outcome is only representable by the Default placeholders in the output and
error slots.  For work returning Ok(Output::default()) the terminal save
carries exactly those placeholders, so the record is slot-for-slot equal to
a no-result record while its status is terminal: no reading of "result is
None" on these records can satisfy the claimed equivalence. -/
theorem c5_counterexample :
    engineSaves 0 (Except.ok 0 : Except Nat Nat) ()
      = [⟨0, Status.started, 0, 0, ()⟩, ⟨0, Status.finished, 0, 0, ()⟩]
    ∧ ¬ (∀ c ∈ engineSaves 0 (Except.ok 0 : Except Nat Nat) (),
        ((c.output = default ∧ c.error = default) ↔ c.status ≠ Status.finished)) := by
  refine ⟨rfl, by decide⟩

/-- Claim C5, amended.  Every record the engine saves with a non-terminal
status is the initial record: its status is Started and its output and
error slots hold the Default placeholders (no outcome).  The converse
direction of the claimed equivalence fails, because a terminal record
stores the Default placeholder in the slot the outcome does not determine
and can therefore be slot-for-slot identical to the initial record. -/
theorem c5_theorem [Inhabited O] [Inhabited E] (id : Uuid)
    (out : Except E O) (m : M) (c : SaveCall O E M)
    (hc : c ∈ engineSaves id out m) (hs : c.status ≠ Status.finished) :
    c.status = Status.started ∧ c.output = default ∧ c.error = default := by
  cases out with
  | ok v =>
    have he : engineSaves id (Except.ok v : Except E O) m
        = [⟨id, Status.started, default, default, m⟩,
           ⟨id, Status.finished, v, default, m⟩] := rfl
    rw [he] at hc
    rcases List.mem_cons.mp hc with h1 | h1
    · subst h1; exact ⟨rfl, rfl, rfl⟩
    rcases List.mem_cons.mp h1 with h2 | h2
    · subst h2; exact absurd rfl hs
    · exact absurd h2 (List.not_mem_nil c)
  | error err =>
    have he : engineSaves id (Except.error err : Except E O) m
        = [⟨id, Status.started, default, default, m⟩,
           ⟨id, Status.finished, default, err, m⟩] := rfl
    rw [he] at hc
    rcases List.mem_cons.mp hc with h1 | h1
    · subst h1; exact ⟨rfl, rfl, rfl⟩
    rcases List.mem_cons.mp h1 with h2 | h2
    · subst h2; exact absurd rfl hs
    · exact absurd h2 (List.not_mem_nil c)

/-- Claim C5, witness: the initial save of a job whose work returns Ok(1)
is non-terminal and carries the Default placeholders. -/
theorem c5_witness :
    ((⟨0, Status.started, 0, 0, ()⟩ : SaveCall Nat Nat Unit)
        ∈ engineSaves 0 (Except.ok 1 : Except Nat Nat) ())
    ∧ ((⟨0, Status.started, 0, 0, ()⟩ : SaveCall Nat Nat Unit).status ≠ Status.finished)
    ∧ ((⟨0, Status.started, 0, 0, ()⟩ : SaveCall Nat Nat Unit).status = Status.started
      ∧ (⟨0, Status.started, 0, 0, ()⟩ : SaveCall Nat Nat Unit).output = default
      ∧ (⟨0, Status.started, 0, 0, ()⟩ : SaveCall Nat Nat Unit).error = default) :=
  ⟨by decide, by decide,
    c5_theorem 0 (Except.ok 1) () ⟨0, Status.started, 0, 0, ()⟩ (by decide) (by decide)⟩

/-- Claim C6, counterexample.  The claim states that a load of a never-saved
id fails with a NotFound-class error, distinguishable from other I/O
failure, for each backend.  The SQLite backend of src/sqlite_job.rs fails
on a missing row with io::Error::new(ErrorKind::Other, ...) — the same
Other kind all its other failure paths use — so the error is not
NotFound-class and not distinguishable by kind from other I/O failure. -/
theorem c6_counterexample :
    errKind (DieselSqliteJob.load demoDecS demoDecR ([] : DB) 5)
      = some ErrorKind.other
    ∧ ErrorKind.other ≠ ErrorKind.notFound := by
  refine ⟨rfl, by decide⟩

/-- Claim C6, amended.  A load of an identity for which no record was ever
saved fails in both backends; the filesystem backend fails with a
NotFound-class error (File::open on a missing file), but the SQLite backend
fails with an error of the generic Other kind, not distinguishable by kind
from its other I/O failures. -/
theorem c6_theorem (deser : String → Except IoError (JobInfo O E M S))
    (fs : FS) (idA : Uuid) (hfs : fs (uuidStr idA) = none)
    (decS : String → Except IoError JobStatus)
    (decR : String → Except IoError (Option (Except E2 O2))) (db : DB)
    (idB : Uuid) (hdb : dbMatching db idB = []) :
    errKind (FSJob.load deser fs idA) = some ErrorKind.notFound
    ∧ errKind (DieselSqliteJob.load decS decR db idB) = some ErrorKind.other
    ∧ ErrorKind.other ≠ ErrorKind.notFound := by
  refine ⟨?_, ?_, by decide⟩
  · unfold FSJob.load
    rw [hfs]
    rfl
  · unfold DieselSqliteJob.load DieselSqliteJob.loadRow
    rw [hdb]
    rfl

/-- Claim C6, witness: on an empty filesystem and an empty table, both
backends fail for id 3 resp. 5, with the kinds the amended claim states. -/
theorem c6_witness :
    emptyFS (uuidStr 3) = none
    ∧ dbMatching ([] : DB) 5 = []
    ∧ (errKind (FSJob.load demoDeser emptyFS 3) = some ErrorKind.notFound
      ∧ errKind (DieselSqliteJob.load demoDecS demoDecR ([] : DB) 5)
          = some ErrorKind.other
      ∧ ErrorKind.other ≠ ErrorKind.notFound) :=
  ⟨rfl, rfl, c6_theorem demoDeser emptyFS 3 rfl demoDecS demoDecR [] 5 rfl⟩

/-- Helper: appending a row whose create_time is strictly greater than that
of every given row makes it the row pickLatest selects. -/
theorem pickLatest_append (l : List JobInfoResultDB) (x : JobInfoResultDB)
    (h : ∀ r ∈ l, strLt r.create_time x.create_time = true) :
    pickLatest (l ++ [x]) = some x := by
  induction l with
  | nil => rfl
  | cons r rs ih =>
    have hx := h r (List.mem_cons_self r rs)
    have hrest : ∀ q ∈ rs, strLt q.create_time x.create_time = true :=
      fun q hq => h q (List.mem_cons_of_mem r hq)
    rw [List.cons_append]
    simp only [pickLatest, ih hrest, hx, if_true]

/-- Claim C7, counterexample.  The claim states that load resolves to the
most recently saved entry by a monotonic time marker, never an older row.
The marker the code orders by is the iso8601 rendering of
SystemTime::now(), which is wall-clock time, not monotonic, and the serial
primary key is not used for ordering.  With the clock stepped backwards
between two saves for id 7, the first save carries the later timestamp and
load returns its row — an older row than the most recently saved one. -/
theorem c7_counterexample :
    demoDB = [⟨0, "7", "started", "null", demoTimeLate⟩,
              ⟨1, "7", "finished", "ok 1", demoTimeEarly⟩]
    ∧ DieselSqliteJob.loadRow demoDB 7
      = some ⟨0, "7", "started", "null", demoTimeLate⟩
    ∧ demoDB.getLast? = some ⟨1, "7", "finished", "ok 1", demoTimeEarly⟩
    ∧ (⟨0, "7", "started", "null", demoTimeLate⟩ : JobInfoResultDB)
      ≠ ⟨1, "7", "finished", "ok 1", demoTimeEarly⟩ := by
  refine ⟨rfl, by decide, rfl, by decide⟩

/-- Claim C7, amended.  In the append-only SQLite backend, save inserts a
new row on every call (the previous rows are untouched), and load selects
a row with maximal create_time among the rows for the id.  Provided the
create_time string of the new save is strictly greater than that of every
existing row for the id — which holds while the wall clock only moves
forward — load returns the most recently saved entry.  The marker is
wall-clock derived and hence not monotonic, so this proviso is not
guaranteed by the code itself. -/
theorem c7_theorem (encS : JobStatus → String)
    (encR : Option (Except E O) → String) (db : DB) (info : JobInfo2 O E)
    (now : String)
    (h : ∀ r ∈ dbMatching db info.id, strLt r.create_time now = true) :
    DieselSqliteJob.save encS encR db info now
      = db ++ [⟨db.length, uuidStr info.id, encS info.status,
                encR info.result, now⟩]
    ∧ DieselSqliteJob.loadRow (DieselSqliteJob.save encS encR db info now)
        info.id
      = some ⟨db.length, uuidStr info.id, encS info.status,
              encR info.result, now⟩ := by
  refine ⟨rfl, ?_⟩
  unfold DieselSqliteJob.loadRow DieselSqliteJob.save dbMatching
  rw [List.filter_append]
  have hx : List.filter (fun (r : JobInfoResultDB) => r.uuid == uuidStr info.id)
      ([⟨db.length, uuidStr info.id, encS info.status, encR info.result, now⟩]
        : List JobInfoResultDB)
      = [⟨db.length, uuidStr info.id, encS info.status, encR info.result, now⟩] := by
    simp [List.filter]
  rw [hx]
  exact pickLatest_append _ _ (fun r hr => h r hr)

/-- Claim C7, witness: a single save into the empty table is returned by
the following load. -/
theorem c7_witness :
    (∀ r ∈ dbMatching ([] : DB) demoInfoA.id,
      strLt r.create_time demoTimeEarly = true)
    ∧ (DieselSqliteJob.save demoEncS demoEncR [] demoInfoA demoTimeEarly
        = [] ++ [⟨List.length ([] : DB), uuidStr demoInfoA.id,
                  demoEncS demoInfoA.status, demoEncR demoInfoA.result,
                  demoTimeEarly⟩]
      ∧ DieselSqliteJob.loadRow
          (DieselSqliteJob.save demoEncS demoEncR [] demoInfoA demoTimeEarly)
          demoInfoA.id
        = some ⟨List.length ([] : DB), uuidStr demoInfoA.id,
                demoEncS demoInfoA.status, demoEncR demoInfoA.result,
                demoTimeEarly⟩) :=
  ⟨by decide, c7_theorem demoEncS demoEncR [] demoInfoA demoTimeEarly (by decide)⟩

/-- Claim C8: the engine never rewrites or drops the metadata.  Both save
calls the engine performs for a job — the initial one and the terminal one,
for success and failure alike — carry the metadata passed to submit, and a
load on a conforming snapshot backend returns that same metadata after the
initial save as well as after either terminal save.  (In the SQLite
backend's own trait iteration no metadata exists at all — its submit takes
none and its rows store none — so there is no submitted metadata there for
the property to range over.) -/
theorem c8_theorem [Inhabited O] [Inhabited E] (s0 : MapStore O E M)
    (id : Uuid) (out : Except E O) (m : M) :
    (engineSaves id out m).map (fun c => c.metadata) = [m, m]
    ∧ Except.map (fun x => x.2.2)
        (mapLoad (mapSave s0 id ⟨Status.started, default, default, m⟩) id)
      = Except.ok m
    ∧ (∀ v : O, Except.map (fun x => x.2.2)
        (mapLoad (mapSave s0 id ⟨Status.finished, v, default, m⟩) id)
      = Except.ok m)
    ∧ (∀ e : E, Except.map (fun x => x.2.2)
        (mapLoad (mapSave s0 id ⟨Status.finished, default, e, m⟩) id)
      = Except.ok m) := by
  refine ⟨by cases out <;> rfl, ?_, fun v => ?_, fun e => ?_⟩ <;>
    simp [mapLoad, mapJob, mapSave, Except.map]

/-- Claim C9: FSJob::save is not atomic on error.  It runs File::create —
which truncates the existing file for the id to empty — before serializing
the record, so when serialization fails, save returns the error while the
previously persisted record has already been destroyed: the file now holds
the empty string, not the old contents. -/
theorem c9_theorem (ser : JobInfo O E M S → Except IoError String) (fs : FS)
    (info : JobInfo O E M S) (e : IoError) (old : String)
    (hser : ser info = Except.error e)
    (_hold : fs (uuidStr info.id) = some old) (hne : old ≠ "") :
    (FSJob.save ser fs info).1 = Except.error e
    ∧ (FSJob.save ser fs info).2 (uuidStr info.id) = some ""
    ∧ (FSJob.save ser fs info).2 (uuidStr info.id) ≠ some old := by
  refine ⟨?_, ?_, ?_⟩
  · simp [FSJob.save, hser]
  · simp [FSJob.save, hser, setFile]
  · simp [FSJob.save, hser, setFile]
    exact fun hcontra => hne hcontra.symm

/-- Claim C9, witness: with a record persisted for id 9 and a failing
serializer, save fails and the file is left empty. -/
theorem c9_witness :
    demoFailSer demoInfoFS = Except.error ⟨ErrorKind.invalidData, "serialization failed"⟩
    ∧ demoFS (uuidStr demoInfoFS.id) = some "old record"
    ∧ "old record" ≠ ""
    ∧ ((FSJob.save demoFailSer demoFS demoInfoFS).1
        = Except.error ⟨ErrorKind.invalidData, "serialization failed"⟩
      ∧ (FSJob.save demoFailSer demoFS demoInfoFS).2 (uuidStr demoInfoFS.id) = some ""
      ∧ (FSJob.save demoFailSer demoFS demoInfoFS).2 (uuidStr demoInfoFS.id)
        ≠ some "old record") :=
  ⟨rfl, rfl, by decide,
    c9_theorem demoFailSer demoFS demoInfoFS
      ⟨ErrorKind.invalidData, "serialization failed"⟩ "old record" rfl rfl (by decide)⟩

/-- Claim C10: the trait Job requires Default for Output and Error
(modelled by the Inhabited instances submit and the task body use), and
every save the engine performs fills the slot not determined by the work's
outcome with the default value: the initial save stores
(Output::default(), Error::default()), a successful completion stores
(v, Error::default()), and a failed completion stores
(Output::default(), e) — so a loaded default value is indistinguishable
from an absent one. -/
theorem c10_theorem [Inhabited O] [Inhabited E] (id : Uuid) (v : O) (e : E)
    (m : M) :
    engineSaves id (Except.ok v : Except E O) m
      = [⟨id, Status.started, default, default, m⟩,
         ⟨id, Status.finished, v, default, m⟩]
    ∧ engineSaves id (Except.error e : Except E O) m
      = [⟨id, Status.started, default, default, m⟩,
         ⟨id, Status.finished, default, e, m⟩] :=
  ⟨rfl, rfl⟩

end SimpleJobs
